import Mathlib

/-!
Verification development for the microplastic-detection demo script
(src/jss.js).  The script fabricates random detection records, keeps an
in-memory history, renders cards, table rows and two charts, and exports
the history as CSV or a printable report.  We shallowly embed the pure
data transformations of the script: randomness sources (Math.random
draws) become explicit rational parameters in the interval from 0
(inclusive) to 1 (exclusive); DOM output becomes structured records of
the rendered cell texts; machine numbers become Nat, Int and Rat.
-/

namespace Microsih

/-- The fixed category list TYPES from the script. -/
def TYPES : List String := ["Fiber", "Fragment", "Pellet", "Microbead"]

/-- The fixed size-bucket list SIZE_BUCKETS from the script. -/
def SIZE_BUCKETS : List String := ["<10 µm", "10-50 µm", "50-100 µm", ">100 µm"]

/-- Model of the spread form Math.max(...l) for a list of Nat counts.
For a nonempty list of naturals this is the list maximum; the script only
applies it to the 4-element counts array, so the empty case is never the
value actually looked up (an empty list makes the subsequent indexOf
return -1 either way). -/
def jsMax (l : List Nat) : Nat := l.foldr max 0

/-- First index of x in l, or none: the core of Array.prototype.indexOf. -/
def firstIdx (l : List Nat) (x : Nat) : Option Nat :=
  match l with
  | [] => none
  | a :: l => if a = x then some 0 else (firstIdx l x).map (· + 1)

/-- Model of l.indexOf(x): first index of x, or -1 when absent. -/
def jsIndexOf (l : List Nat) (x : Nat) : Int :=
  match firstIdx l x with
  | some k => (k : Int)
  | none => -1

/-- Model of JS array subscripting arr[i] for a possibly negative index:
undefined (none) when out of range. -/
def jsGet (l : List String) (i : Int) : Option String :=
  if i < 0 then none else l.get? i.toNat

/-- The shared dominant-type index expression
counts.indexOf(Math.max(...counts)) used at every rendering site. -/
def domTypeIndex (counts : List Nat) : Int :=
  jsIndexOf counts (jsMax counts)

/-- Dominant-type label of the history-table renderer (addHistoryRow):
TYPES[domTypeIndex] with the falsy-fallback "Unknown" (the TYPES entries
are nonempty strings, so only undefined triggers the fallback). -/
def tableDomType (counts : List Nat) : String :=
  (jsGet TYPES (domTypeIndex counts)).getD "Unknown"

/-- Dominant-type label interpolated into the image card: the template
literal renders an undefined lookup as the text "undefined". -/
def cardDomType (counts : List Nat) : String :=
  (jsGet TYPES (domTypeIndex counts)).getD "undefined"

/-- Dominant-type cell of a CSV data row: String(undefined) is
"undefined". -/
def csvDomType (counts : List Nat) : String :=
  (jsGet TYPES (domTypeIndex counts)).getD "undefined"

/-- Dominant-type cell of a printable-report row, again interpolated by a
template literal. -/
def reportDomType (counts : List Nat) : String :=
  (jsGet TYPES (domTypeIndex counts)).getD "undefined"

/-- Model of Math.floor(q * 6) for one Math.random() draw q in [0,1). -/
def draw6 (q : ℚ) : Nat := (⌊q * 6⌋).toNat

/-- Model of Math.floor(q * SIZE_BUCKETS.length) for one draw q. -/
def draw4 (q : ℚ) : Nat := (⌊q * 4⌋).toNat

/-- The all-zero repair in fakeDetection: if the drawn counts sum to 0,
counts[0] is set to 1 so at least one detection exists. -/
def mkCounts (draws : List Nat) : List Nat :=
  if draws.sum = 0 then draws.set 0 1 else draws

/-- Digit string of one decimal digit followed by nothing: helper for the
fixed-point rendering below. -/
def accuracyStr (tenths : Nat) : String :=
  toString (tenths / 10) ++ "." ++ toString (tenths % 10)

/-- Model of Number.prototype.toFixed(1) on a nonnegative value: round to
the nearest tenth and print with exactly one fractional digit. -/
def toFixed1 (v : ℚ) : String :=
  accuracyStr (round (v * 10)).toNat

/-- The rounded tenths value underlying toFixed1. -/
def accTenths (qa : ℚ) : Nat := (round ((70 + qa * 29) * 10)).toNat

/-- A detection result as returned by fakeDetection: counts per type, a
size-bucket text and the accuracy string. -/
structure DetResult where
  counts : List Nat
  size : String
  accuracy : String
  deriving Repr, DecidableEq

/-- fakeDetection, with the five Math.random() draws passed explicitly:
r i are the four count draws, qs the size draw and qa the accuracy draw,
each a rational in [0,1). -/
def fakeDetection (r : Fin 4 → ℚ) (qs qa : ℚ) : DetResult :=
  { counts := mkCounts ((List.finRange 4).map (fun i => draw6 (r i)))
    size := (SIZE_BUCKETS.get? (draw4 qs)).getD "undefined"
    accuracy := toFixed1 (70 + qa * 29) }

/-- One history record, as pushed onto the allImages array. -/
structure AnalyzedImage where
  name : String
  shortName : String
  counts : List Nat
  size : String
  accuracy : String
  deriving Repr, DecidableEq

/-- The shortName helper: truncate to 15 characters plus an ellipsis when
the name exceeds 18 characters. -/
def shortName (name : String) : String :=
  if name.length > 18 then String.mk (name.toList.take 15) ++ "..." else name

/-- Accumulate a decimal digit string into a natural number. -/
def digitsToNat (l : List Char) : Nat :=
  l.foldl (fun a c => 10 * a + (c.toNat - 48)) 0

/-- Split a character list at the first dot. -/
def splitAtDot (l : List Char) : List Char × List Char :=
  match l with
  | [] => ([], [])
  | c :: cs => if c = '.' then ([], cs) else
      let p := splitAtDot cs
      (c :: p.1, p.2)

/-- Model of Number(s) on the nonnegative decimal strings the script
produces (an integer part, optionally a dot and a fractional part). -/
def jsNumber (s : String) : ℚ :=
  let p := splitAtDot s.toList
  if s.toList.contains '.' then
    (digitsToNat p.1 : ℚ) + (digitsToNat p.2 : ℚ) / 10 ^ p.2.length
  else (digitsToNat p.1 : ℚ)

/-- The mutable series of the two Chart.js charts: the composition chart
labels and its 4 per-type data arrays (a missing count surfaces as none,
the way an out-of-range subscript surfaces as undefined), and the
accuracy chart labels and data. -/
structure ChartState where
  compLabels : List String
  compData : List (List (Option Nat))
  accLabels : List String
  accData : List ℚ
  deriving Repr, DecidableEq

/-- updateCharts: recompute every series from the current allImages
snapshot, overwriting the previous state wholesale. -/
def updateCharts (_prev : ChartState) (store : List AnalyzedImage) : ChartState :=
  let labels := store.map (fun i => i.shortName)
  { compLabels := labels
    compData := (List.range TYPES.length).map
      (fun typeIndex => store.map (fun img => img.counts.get? typeIndex))
    accLabels := labels
    accData := store.map (fun img => jsNumber img.accuracy) }

/-- The four cell texts of one history-table row (addHistoryRow). -/
structure TableRow where
  nameCell : String
  domCell : String
  sizeCell : String
  accCell : String
  deriving Repr, DecidableEq

/-- addHistoryRow: the row appended to the history table body. -/
def mkTableRow (img : AnalyzedImage) : TableRow :=
  { nameCell := img.name
    domCell := tableDomType img.counts
    sizeCell := img.size
    accCell := img.accuracy ++ "%" }

/-- The texts of one image card (the heading, dominant type, size,
accuracy and counts lines). -/
structure Card where
  heading : String
  domLine : String
  sizeLine : String
  accLine : String
  countsLine : String
  deriving Repr, DecidableEq

/-- The card built in the file-change handler for one detection. -/
def mkCard (name : String) (det : DetResult) : Card :=
  { heading := shortName name
    domLine := cardDomType det.counts
    sizeLine := det.size
    accLine := det.accuracy ++ "%"
    countsLine := String.intercalate ", " (det.counts.map toString) }

/-- The in-memory UI state the change handler mutates: the card grid
(newest first), the allImages history array (append order) and the
history-table rows (append order). -/
structure UIState where
  imageGrid : List Card
  allImages : List AnalyzedImage
  tableRows : List TableRow
  deriving Repr, DecidableEq

/-- The empty page state. -/
def initialState : UIState := { imageGrid := [], allImages := [], tableRows := [] }

/-- The record object assembled in the change handler from a file name
and its detection. -/
def mkImgObj (name : String) (det : DetResult) : AnalyzedImage :=
  { name := name
    shortName := shortName name
    counts := det.counts
    size := det.size
    accuracy := det.accuracy }

/-- The card a stored record corresponds to (the record carries exactly
the detection fields the card was rendered from). -/
def cardOf (img : AnalyzedImage) : Card :=
  mkCard img.name { counts := img.counts, size := img.size, accuracy := img.accuracy }

/-- The reader-onload body for one file: prepend the card to the grid,
push the record onto allImages and append the table row. -/
def processUpload (st : UIState) (name : String) (det : DetResult) : UIState :=
  { imageGrid := mkCard name det :: st.imageGrid
    allImages := st.allImages ++ [mkImgObj name det]
    tableRows := st.tableRows ++ [mkTableRow (mkImgObj name det)] }

/-- Process a whole selection of files in completion order. -/
def processAll (st : UIState) (files : List (String × DetResult)) : UIState :=
  files.foldl (fun s f => processUpload s f.1 f.2) st

/-- CSV quoting: wrap in double quotes, doubling embedded double quotes
(the regex replace of each quote character). -/
def csvEscape (s : String) : String :=
  "\"" ++ String.join (s.toList.map
    (fun c => if c = '"' then "\"\"" else String.singleton c)) ++ "\""

/-- The CSV header cells. -/
def csvHeader : List String := ["Image", "DominantType", "Size", "Accuracy"] ++ TYPES

/-- The 8 cells of one CSV data row, numbers already passed through
String(...). -/
def csvRowCells (img : AnalyzedImage) : List String :=
  [img.name, csvDomType img.counts, img.size, img.accuracy ++ "%"]
    ++ img.counts.map toString

/-- One serialized CSV line: quoted cells joined by commas. -/
def csvLine (cells : List String) : String :=
  String.intercalate "," (cells.map csvEscape)

/-- The whole CSV document: header line then one line per record, joined
by newlines. -/
def csvContent (store : List AnalyzedImage) : String :=
  String.intercalate "\n" ((csvHeader :: store.map csvRowCells).map csvLine)

/-- Observable outcome of the downloadCSV handler: the alerts raised and
the downloaded document (none when the handler aborts). -/
structure CsvEffect where
  alerts : List String
  download : Option String
  deriving Repr, DecidableEq

/-- downloadCSV over the current snapshot. -/
def downloadCSV (store : List AnalyzedImage) : CsvEffect :=
  if store.length = 0 then
    { alerts := ["No history to download."], download := none }
  else
    { alerts := [], download := some (csvContent store) }

/-- downloadCSV run against the page state: the handler only reads the
history, so the state is returned untouched. -/
def downloadCSVRun (st : UIState) : UIState × CsvEffect :=
  (st, downloadCSV st.allImages)

/-- The four cell texts of one printable-report row. -/
structure ReportRow where
  nameCell : String
  domCell : String
  sizeCell : String
  accCell : String
  deriving Repr, DecidableEq

/-- One row of the printed table. -/
def mkReportRow (img : AnalyzedImage) : ReportRow :=
  { nameCell := img.name
    domCell := reportDomType img.counts
    sizeCell := img.size
    accCell := img.accuracy ++ "%" }

/-- The document written into the print window: a generation timestamp
and the table rows (static headings and styling omitted as constants). -/
structure ReportDoc where
  generated : String
  rows : List ReportRow
  deriving Repr, DecidableEq

/-- Observable outcome of the printReport handler: alerts raised, the
document written into the popup (none when nothing is written) and
whether print() is invoked. -/
structure PrintEffect where
  alerts : List String
  written : Option ReportDoc
  printInvoked : Bool
  deriving Repr, DecidableEq

/-- printReport over the current snapshot; popupAllowed tells whether
window.open returns a window or null. -/
def printReport (store : List AnalyzedImage) (popupAllowed : Bool)
    (now : String) : PrintEffect :=
  if store.length = 0 then
    { alerts := ["No history to print."], written := none, printInvoked := false }
  else if popupAllowed = false then
    { alerts := ["Popup blocked. Allow popups and try again."],
      written := none, printInvoked := false }
  else
    { alerts := []
      written := some { generated := now, rows := store.map mkReportRow }
      printInvoked := true }

/-- printReport run against the page state: read-only on the history. -/
def printReportRun (st : UIState) (popupAllowed : Bool) (now : String) :
    UIState × PrintEffect :=
  (st, printReport st.allImages popupAllowed now)

/-- A sample record exercising the export paths (its name contains an
embedded double quote). -/
def sampleImage : AnalyzedImage :=
  { name := "My\"File.png"
    shortName := "My\"File.png"
    counts := [1, 2, 3, 4]
    size := "<10 µm"
    accuracy := "70.0" }

/-- A one-record page state. -/
def sampleState : UIState :=
  { imageGrid := [], allImages := [sampleImage], tableRows := [] }

/-! ## Helper lemmas -/

lemma jsMax_cons (a : Nat) (l : List Nat) : jsMax (a :: l) = max a (jsMax l) := rfl

lemma le_jsMax {l : List Nat} {a : Nat} (h : a ∈ l) : a ≤ jsMax l := by
  induction l with
  | nil => simp at h
  | cons b l ih =>
    rw [jsMax_cons]
    rcases List.mem_cons.mp h with h1 | h2
    · exact h1 ▸ Nat.le_max_left _ _
    · exact le_trans (ih h2) (Nat.le_max_right _ _)

lemma jsMax_mem {l : List Nat} (h : l ≠ []) : jsMax l ∈ l := by
  induction l with
  | nil => simp at h
  | cons b l ih =>
    rw [jsMax_cons]
    rcases eq_or_ne l [] with rfl | hne
    · simp [jsMax]
    · rcases le_total b (jsMax l) with hb | hb
      · rw [Nat.max_eq_right hb]
        exact List.mem_cons_of_mem _ (ih hne)
      · rw [Nat.max_eq_left hb]
        exact List.mem_cons_self _ _

lemma firstIdx_spec {l : List Nat} {x : Nat} (h : x ∈ l) :
    ∃ k, firstIdx l x = some k ∧ k < l.length ∧ l[k]? = some x ∧
      ∀ j, j < k → l[j]? ≠ some x := by
  induction l with
  | nil => simp at h
  | cons a l ih =>
    by_cases hax : a = x
    · exact ⟨0, by simp [firstIdx, hax], by simp, by simp [hax],
        fun j hj => absurd hj (Nat.not_lt_zero j)⟩
    · have hx : x ∈ l := by
        rcases List.mem_cons.mp h with h1 | h2
        · exact absurd h1.symm hax
        · exact h2
      obtain ⟨k, hk1, hk2, hk3, hk4⟩ := ih hx
      refine ⟨k + 1, ?_, ?_, ?_, ?_⟩
      · simp [firstIdx, hax, hk1]
      · simpa using Nat.succ_lt_succ hk2
      · simpa using hk3
      · intro j hj
        cases j with
        | zero => simp [hax]
        | succ j => simpa using hk4 j (Nat.lt_of_succ_lt_succ hj)

/-- The dominant-type index is the first index attaining the maximum
count: it is nonnegative, in range, holds the maximum, and every earlier
entry is strictly smaller. -/
lemma domTypeIndex_spec {counts : List Nat} (h : counts ≠ []) :
    ∃ k : Nat, domTypeIndex counts = (k : Int) ∧ k < counts.length ∧
      counts[k]? = some (jsMax counts) ∧
      (∀ c ∈ counts, c ≤ jsMax counts) ∧
      ∀ j, j < k → ∀ c, counts[j]? = some c → c < jsMax counts := by
  obtain ⟨k, h1, h2, h3, h4⟩ := firstIdx_spec (jsMax_mem h)
  refine ⟨k, by simp [domTypeIndex, jsIndexOf, h1], h2, h3,
    fun c hc => le_jsMax hc, ?_⟩
  intro j hj c hc
  have hmem : c ∈ counts := List.getElem?_mem hc
  exact lt_of_le_of_ne (le_jsMax hmem) (fun he => h4 j hj (by rw [hc, he]))

/-- The TYPES lookup at a nonnegative in-range index succeeds. -/
lemma jsGet_TYPES {k : Nat} (hk : k < TYPES.length) :
    jsGet TYPES (k : Int) = some (TYPES.get ⟨k, hk⟩) := by
  simp [jsGet, List.getElem?_eq_getElem hk, List.get_eq_getElem]

lemma draw6_le {q : ℚ} (h1 : q < 1) : draw6 q ≤ 5 := by
  unfold draw6
  have hf : ⌊q * 6⌋ < 6 := by
    rw [Int.floor_lt]
    push_cast
    linarith
  omega

lemma mkCounts_length (draws : List Nat) : (mkCounts draws).length = draws.length := by
  unfold mkCounts
  split <;> simp

lemma mkCounts_sum_pos {draws : List Nat} (h : draws ≠ []) :
    1 ≤ (mkCounts draws).sum := by
  unfold mkCounts
  split
  · cases draws with
    | nil => simp at h
    | cons a l => simp
  · omega

lemma mkCounts_mem_le {draws : List Nat} {bound : Nat} (hb : 1 ≤ bound)
    (h : ∀ d ∈ draws, d ≤ bound) : ∀ c ∈ mkCounts draws, c ≤ bound := by
  intro c hc
  unfold mkCounts at hc
  split at hc
  · rcases List.mem_or_eq_of_mem_set hc with hm | rfl
    · exact h c hm
    · exact hb
  · exact h c hc

lemma accTenths_bounds {qa : ℚ} (h0 : 0 ≤ qa) (h1 : qa < 1) :
    700 ≤ accTenths qa ∧ accTenths qa ≤ 990 := by
  unfold accTenths
  have hlo : (700 : ℤ) ≤ round ((70 + qa * 29) * 10) := by
    rw [round_eq, Int.le_floor]
    push_cast
    linarith
  have hhi : round ((70 + qa * 29) * 10) ≤ 990 := by
    rw [round_eq]
    have : ⌊(70 + qa * 29) * 10 + 1 / 2⌋ < 991 := by
      rw [Int.floor_lt]
      push_cast
      linarith
    omega
  omega

/-- The dominant-type lookup of a nonempty history record with at most 4
counts succeeds, and every renderer shows the same TYPES entry. -/
lemma domLabel_mem {counts : List Nat} (h1 : counts ≠ []) (h2 : counts.length ≤ 4) :
    ∃ k : Nat, k < 4 ∧ domTypeIndex counts = (k : Int) ∧
      jsGet TYPES (domTypeIndex counts) = some (tableDomType counts) ∧
      tableDomType counts ∈ TYPES := by
  obtain ⟨k, hidx, hlt, -, -, -⟩ := domTypeIndex_spec h1
  have hk4 : k < 4 := lt_of_lt_of_le hlt h2
  have hkT : k < TYPES.length := by simpa [TYPES] using hk4
  have hget : jsGet TYPES (domTypeIndex counts) = some (TYPES.get ⟨k, hkT⟩) := by
    rw [hidx]
    exact jsGet_TYPES hkT
  have htab : tableDomType counts = TYPES.get ⟨k, hkT⟩ := by
    rw [tableDomType, hget]
    rfl
  exact ⟨k, hk4, hidx, by rw [hget, htab], by rw [htab]; exact List.get_mem ..⟩

set_option maxRecDepth 4000 in
/-- Shape of the fixed-point accuracy string for every tenths value the
simulator can produce: the fractional part is a single digit and every
character is a digit or the decimal point. -/
lemma accuracyStr_shape : ∀ t, t < 991 → 700 ≤ t →
    (toString (t % 10)).length = 1 ∧
    (accuracyStr t).toList.all (fun c => c.isDigit || c == '.') := by
  decide

/-! ## Claim theorems -/

/-- C1: every record produced by fakeDetection has a counts sequence of
exactly 4 integers, each at most 5 (and nonnegative, being naturals); if
all four drawn values are 0 the first is set to 1; hence the counts sum
is at least 1. -/
theorem fakeDetection_counts_valid (r : Fin 4 → ℚ) (qs qa : ℚ)
    (h : ∀ i, 0 ≤ r i ∧ r i < 1) :
    (fakeDetection r qs qa).counts.length = 4 ∧
    (∀ c ∈ (fakeDetection r qs qa).counts, c ≤ 5) ∧
    ((∀ i, draw6 (r i) = 0) → (fakeDetection r qs qa).counts = [1, 0, 0, 0]) ∧
    1 ≤ (fakeDetection r qs qa).counts.sum := by
  have hdraws : (List.finRange 4).map (fun i => draw6 (r i)) =
      [draw6 (r 0), draw6 (r 1), draw6 (r 2), draw6 (r 3)] := by
    have h4 : List.finRange 4 = [0, 1, 2, 3] := by decide
    rw [h4]
    rfl
  have hcounts : (fakeDetection r qs qa).counts =
      mkCounts [draw6 (r 0), draw6 (r 1), draw6 (r 2), draw6 (r 3)] := by
    rw [fakeDetection, hdraws]
  refine ⟨?_, ?_, ?_, ?_⟩
  · rw [hcounts, mkCounts_length]
    rfl
  · rw [hcounts]
    refine mkCounts_mem_le (by norm_num) ?_
    intro d hd
    simp only [List.mem_cons, List.not_mem_nil, or_false] at hd
    rcases hd with rfl | rfl | rfl | rfl
    · exact draw6_le (h 0).2
    · exact draw6_le (h 1).2
    · exact draw6_le (h 2).2
    · exact draw6_le (h 3).2
  · intro hz
    rw [hcounts, hz 0, hz 1, hz 2, hz 3]
    rfl
  · rw [hcounts]
    exact mkCounts_sum_pos (by simp)

/-- C1 witness: all draws 0 gives counts [1, 0, 0, 0], summing to 1. -/
theorem fakeDetection_counts_valid_witness :
    (∀ _i : Fin 4, 0 ≤ (0 : ℚ) ∧ (0 : ℚ) < 1) ∧
    ((fakeDetection (fun _ => 0) 0 0).counts.length = 4 ∧
    (∀ c ∈ (fakeDetection (fun _ => 0) 0 0).counts, c ≤ 5) ∧
    ((∀ i : Fin 4, draw6 ((fun _ => (0 : ℚ)) i) = 0) →
      (fakeDetection (fun _ => 0) 0 0).counts = [1, 0, 0, 0]) ∧
    1 ≤ (fakeDetection (fun _ => 0) 0 0).counts.sum) :=
  ⟨fun _ => ⟨le_refl 0, by norm_num⟩,
   fakeDetection_counts_valid (fun _ => 0) 0 0 (fun _ => ⟨le_refl 0, by norm_num⟩)⟩

/-- C2: the dominant-type index is the argmax over counts with
first-index tie-break (the smallest index attaining the maximum); in
particular counts [2, 2, 0, 0] yields the first category Fiber, and the
table renderer, the CSV export and the print report all derive their
label from this same index via the TYPES lookup. -/
theorem dominantType_first_argmax (counts : List Nat) (h : counts ≠ []) :
    (∃ k : Nat, domTypeIndex counts = (k : Int) ∧ k < counts.length ∧
      (∀ m, counts[k]? = some m →
        (∀ c ∈ counts, c ≤ m) ∧
        ∀ j, j < k → ∀ c, counts[j]? = some c → c < m)) ∧
    tableDomType [2, 2, 0, 0] = "Fiber" ∧
    csvDomType [2, 2, 0, 0] = "Fiber" ∧
    reportDomType [2, 2, 0, 0] = "Fiber" ∧
    tableDomType counts = (jsGet TYPES (domTypeIndex counts)).getD "Unknown" ∧
    csvDomType counts = (jsGet TYPES (domTypeIndex counts)).getD "undefined" ∧
    reportDomType counts = (jsGet TYPES (domTypeIndex counts)).getD "undefined" := by
  obtain ⟨k, hidx, hlt, hmax, hub, hfirst⟩ := domTypeIndex_spec h
  refine ⟨⟨k, hidx, hlt, ?_⟩, by decide, by decide, by decide, rfl, rfl, rfl⟩
  intro m hm
  rw [hmax] at hm
  injection hm with hm
  subst hm
  exact ⟨hub, hfirst⟩

/-- C2 witness: evaluated at counts [2, 2, 0, 0]. -/
theorem dominantType_first_argmax_witness :
    ([2, 2, 0, 0] : List Nat) ≠ [] ∧
    ((∃ k : Nat, domTypeIndex [2, 2, 0, 0] = (k : Int) ∧ k < ([2, 2, 0, 0] : List Nat).length ∧
      (∀ m, ([2, 2, 0, 0] : List Nat)[k]? = some m →
        (∀ c ∈ ([2, 2, 0, 0] : List Nat), c ≤ m) ∧
        ∀ j, j < k → ∀ c, ([2, 2, 0, 0] : List Nat)[j]? = some c → c < m)) ∧
    tableDomType [2, 2, 0, 0] = "Fiber" ∧
    csvDomType [2, 2, 0, 0] = "Fiber" ∧
    reportDomType [2, 2, 0, 0] = "Fiber" ∧
    tableDomType [2, 2, 0, 0] = (jsGet TYPES (domTypeIndex [2, 2, 0, 0])).getD "Unknown" ∧
    csvDomType [2, 2, 0, 0] = (jsGet TYPES (domTypeIndex [2, 2, 0, 0])).getD "undefined" ∧
    reportDomType [2, 2, 0, 0] = (jsGet TYPES (domTypeIndex [2, 2, 0, 0])).getD "undefined") :=
  ⟨by decide, dominantType_first_argmax [2, 2, 0, 0] (by decide)⟩

/-- C6: the generated accuracy value, in tenths, lies in [700, 990]
(that is, in [70.0, 99.0]) and is rendered as a fixed-point string with
exactly one fractional digit and no unit suffix (every character is a
digit or the decimal point). -/
theorem accuracy_range_and_format (r : Fin 4 → ℚ) (qs qa : ℚ)
    (h0 : 0 ≤ qa) (h1 : qa < 1) :
    (fakeDetection r qs qa).accuracy = accuracyStr (accTenths qa) ∧
    700 ≤ accTenths qa ∧ accTenths qa ≤ 990 ∧
    (70 : ℚ) ≤ (accTenths qa : ℚ) / 10 ∧ (accTenths qa : ℚ) / 10 ≤ 99 ∧
    accuracyStr (accTenths qa) =
      toString (accTenths qa / 10) ++ "." ++ toString (accTenths qa % 10) ∧
    (toString (accTenths qa % 10)).length = 1 ∧
    (accuracyStr (accTenths qa)).toList.all (fun c => c.isDigit || c == '.') = true := by
  obtain ⟨hlo, hhi⟩ := accTenths_bounds h0 h1
  obtain ⟨hfrac, hall⟩ := accuracyStr_shape (accTenths qa) (by omega) hlo
  refine ⟨rfl, hlo, hhi, ?_, ?_, rfl, hfrac, hall⟩
  · rw [le_div_iff₀ (by norm_num : (0:ℚ) < 10)]
    norm_num
    exact_mod_cast hlo
  · rw [div_le_iff₀ (by norm_num : (0:ℚ) < 10)]
    norm_num
    exact_mod_cast hhi

/-- C6 witness: evaluated with accuracy draw 0 (every count draw 0, size
draw 0). -/
theorem accuracy_range_and_format_witness :
    (0 : ℚ) ≤ 0 ∧ (0 : ℚ) < 1 ∧
    ((fakeDetection (fun _ => 0) 0 0).accuracy = accuracyStr (accTenths 0) ∧
    700 ≤ accTenths 0 ∧ accTenths 0 ≤ 990 ∧
    (70 : ℚ) ≤ (accTenths 0 : ℚ) / 10 ∧ (accTenths 0 : ℚ) / 10 ≤ 99 ∧
    accuracyStr (accTenths 0) =
      toString (accTenths 0 / 10) ++ "." ++ toString (accTenths 0 % 10) ∧
    (toString (accTenths 0 % 10)).length = 1 ∧
    (accuracyStr (accTenths 0)).toList.all (fun c => c.isDigit || c == '.') = true) :=
  ⟨le_refl 0, by norm_num,
   accuracy_range_and_format (fun _ => 0) 0 0 (le_refl 0) (by norm_num)⟩

/-- C7 counterexample: on the all-zero 4-element counts the dominant-type
derivation of the table renderer yields the first category label Fiber
(indexOf finds the maximum 0 at index 0), not the sentinel Unknown. -/
theorem allzero_counts_counterexample :
    tableDomType [0, 0, 0, 0] = "Fiber" ∧ "Fiber" ≠ "Unknown" := by
  constructor
  · decide
  · decide

/-- C7 amended: with all-zero 4-element counts the derivation yields the
first category label Fiber; the Unknown fallback is reached only for an
empty counts sequence (where indexOf returns -1), which is unreachable
for generated records; no nonempty counts of length at most 4 produces
Unknown. -/
theorem unknown_fallback_only_empty (counts : List Nat) (h1 : counts ≠ [])
    (h2 : counts.length ≤ 4) :
    tableDomType [0, 0, 0, 0] = "Fiber" ∧
    tableDomType [] = "Unknown" ∧
    tableDomType counts ≠ "Unknown" := by
  obtain ⟨k, hk4, hidx, hget, hmem⟩ := domLabel_mem h1 h2
  refine ⟨by decide, by decide, fun he => ?_⟩
  rw [he] at hmem
  exact (by decide : "Unknown" ∉ TYPES) hmem

/-- C7 amended witness: evaluated at the all-zero counts. -/
theorem unknown_fallback_only_empty_witness :
    ([0, 0, 0, 0] : List Nat) ≠ [] ∧ ([0, 0, 0, 0] : List Nat).length ≤ 4 ∧
    (tableDomType [0, 0, 0, 0] = "Fiber" ∧
    tableDomType [] = "Unknown" ∧
    tableDomType [0, 0, 0, 0] ≠ "Unknown") :=
  ⟨by decide, by decide, unknown_fallback_only_empty [0, 0, 0, 0] (by decide) (by decide)⟩

/-- C10: for a 4-element counts sequence the dominant-type label of the
history-table row, the image card, the CSV row and the print-report row
coincide; the Unknown fallback is unreachable and the common label is
the TYPES entry at the dominant index. -/
theorem dominant_label_views_agree (counts : List Nat) (h : counts.length = 4) :
    cardDomType counts = tableDomType counts ∧
    csvDomType counts = tableDomType counts ∧
    reportDomType counts = tableDomType counts ∧
    tableDomType counts ≠ "Unknown" ∧
    ∃ k : Nat, k < 4 ∧ domTypeIndex counts = (k : Int) ∧
      jsGet TYPES (domTypeIndex counts) = some (tableDomType counts) := by
  have h1 : counts ≠ [] := by
    intro he
    rw [he] at h
    simp at h
  obtain ⟨k, hk4, hidx, hget, hmem⟩ := domLabel_mem h1 (le_of_eq h)
  have hcard : cardDomType counts = tableDomType counts := by
    rw [cardDomType, tableDomType, hget]
    rfl
  have hne : tableDomType counts ≠ "Unknown" := by
    intro he
    rw [he] at hmem
    exact (by decide : "Unknown" ∉ TYPES) hmem
  exact ⟨hcard, hcard, hcard, hne, k, hk4, hidx, hget⟩

/-- C10 witness: evaluated at counts [1, 2, 3, 4]. -/
theorem dominant_label_views_agree_witness :
    ([1, 2, 3, 4] : List Nat).length = 4 ∧
    (cardDomType [1, 2, 3, 4] = tableDomType [1, 2, 3, 4] ∧
    csvDomType [1, 2, 3, 4] = tableDomType [1, 2, 3, 4] ∧
    reportDomType [1, 2, 3, 4] = tableDomType [1, 2, 3, 4] ∧
    tableDomType [1, 2, 3, 4] ≠ "Unknown" ∧
    ∃ k : Nat, k < 4 ∧ domTypeIndex [1, 2, 3, 4] = (k : Int) ∧
      jsGet TYPES (domTypeIndex [1, 2, 3, 4]) = some (tableDomType [1, 2, 3, 4])) :=
  ⟨by decide, dominant_label_views_agree [1, 2, 3, 4] (by decide)⟩

/-- C3: CSV export of a nonempty store yields the newline-join of one
header line and one data line per record in store order; the header has
the 8 fields Image, DominantType, Size, Accuracy and the 4 category
names; each data row has 8 comma-separated fields with the accuracy
carrying a trailing percent sign; every field is double-quoted with
embedded quotes doubled. -/
theorem csv_export_format (store : List AnalyzedImage)
    (h1 : store ≠ []) (h4 : ∀ img ∈ store, img.counts.length = 4) :
    downloadCSV store = { alerts := [], download := some (csvContent store) } ∧
    csvContent store =
      String.intercalate "\n" ((csvHeader :: store.map csvRowCells).map csvLine) ∧
    ((csvHeader :: store.map csvRowCells).map csvLine).length = store.length + 1 ∧
    csvLine csvHeader =
      "\"Image\",\"DominantType\",\"Size\",\"Accuracy\",\"Fiber\",\"Fragment\",\"Pellet\",\"Microbead\"" ∧
    (∀ img ∈ store, (csvRowCells img).length = 8 ∧
      csvRowCells img =
        [img.name, csvDomType img.counts, img.size, img.accuracy ++ "%"]
          ++ img.counts.map toString) ∧
    (∀ cells, csvLine cells = String.intercalate "," (cells.map csvEscape)) ∧
    csvEscape "My\"File.png" = "\"My\"\"File.png\"" := by
  have hlen : store.length ≠ 0 := by
    intro he
    exact h1 (List.length_eq_zero.mp he)
  refine ⟨?_, rfl, by simp, by decide, ?_, fun cells => rfl, by decide⟩
  · rw [downloadCSV, if_neg hlen]
  · intro img hmem
    refine ⟨?_, rfl⟩
    simp [csvRowCells, h4 img hmem]

/-- C3 witness: evaluated at a one-record store. -/
theorem csv_export_format_witness :
    ([sampleImage] : List AnalyzedImage) ≠ [] ∧
    (∀ img ∈ ([sampleImage] : List AnalyzedImage), img.counts.length = 4) ∧
    downloadCSV [sampleImage] =
      { alerts := [], download := some (csvContent [sampleImage]) } ∧
    csvContent [sampleImage] =
      "\"Image\",\"DominantType\",\"Size\",\"Accuracy\",\"Fiber\",\"Fragment\",\"Pellet\",\"Microbead\"\n\"My\"\"File.png\",\"Microbead\",\"<10 µm\",\"70.0%\",\"1\",\"2\",\"3\",\"4\"" :=
  ⟨by decide, by decide,
   (csv_export_format [sampleImage] (by decide) (by decide)).1,
   by decide⟩

/-- C4: on an empty store both export operations raise their
empty-history notice exactly once, abort with no output, and leave the
page state untouched. -/
theorem empty_history_guard (st : UIState) (b : Bool) (now : String)
    (h : st.allImages = []) :
    downloadCSVRun st =
      (st, { alerts := ["No history to download."], download := none }) ∧
    (downloadCSV st.allImages).alerts.length = 1 ∧
    printReportRun st b now =
      (st, { alerts := ["No history to print."], written := none,
             printInvoked := false }) ∧
    (printReport st.allImages b now).alerts.length = 1 := by
  refine ⟨?_, ?_, ?_, ?_⟩ <;>
    simp [downloadCSVRun, printReportRun, downloadCSV, printReport, h]

/-- C4 witness: evaluated at the initial page state. -/
theorem empty_history_guard_witness :
    initialState.allImages = [] ∧
    (downloadCSVRun initialState =
      (initialState, { alerts := ["No history to download."], download := none }) ∧
    (downloadCSV initialState.allImages).alerts.length = 1 ∧
    printReportRun initialState true "now" =
      (initialState,
       { alerts := ["No history to print."], written := none,
         printInvoked := false }) ∧
    (printReport initialState.allImages true "now").alerts.length = 1) :=
  ⟨rfl, empty_history_guard initialState true "now" rfl⟩

/-- C9: on a nonempty store, when the popup cannot be opened the print
operation raises exactly the popup-blocked notice, writes no document,
invokes no print, and leaves the page state untouched. -/
theorem popup_blocked_guard (st : UIState) (now : String)
    (h : st.allImages ≠ []) :
    printReportRun st false now =
      (st, { alerts := ["Popup blocked. Allow popups and try again."],
             written := none, printInvoked := false }) ∧
    (printReport st.allImages false now).alerts.length = 1 := by
  have hlen : st.allImages.length ≠ 0 := by
    intro he
    exact h (List.length_eq_zero.mp he)
  constructor <;> simp [printReportRun, printReport, hlen]

/-- C9 witness: evaluated at a one-record page state. -/
theorem popup_blocked_guard_witness :
    sampleState.allImages ≠ [] ∧
    (printReportRun sampleState false "now" =
      (sampleState,
       { alerts := ["Popup blocked. Allow popups and try again."],
         written := none, printInvoked := false }) ∧
    (printReport sampleState.allImages false "now").alerts.length = 1) :=
  ⟨by decide, popup_blocked_guard sampleState "now" (by decide)⟩

lemma processAll_cons (st : UIState) (f : String × DetResult)
    (fs : List (String × DetResult)) :
    processAll st (f :: fs) = processAll (processUpload st f.1 f.2) fs := rfl

/-- Effect of processing a file list on each view: records append in
order, cards accumulate reversed at the front, table rows append. -/
lemma processAll_spec (files : List (String × DetResult)) (st : UIState) :
    (processAll st files).allImages =
      st.allImages ++ files.map (fun f => mkImgObj f.1 f.2) ∧
    (processAll st files).imageGrid =
      (files.map (fun f => mkCard f.1 f.2)).reverse ++ st.imageGrid ∧
    (processAll st files).tableRows =
      st.tableRows ++ files.map (fun f => mkTableRow (mkImgObj f.1 f.2)) := by
  induction files generalizing st with
  | nil => exact ⟨by simp [processAll], by simp [processAll], by simp [processAll]⟩
  | cons f fs ih =>
    obtain ⟨ha, hg, ht⟩ := ih (processUpload st f.1 f.2)
    rw [processAll_cons]
    refine ⟨?_, ?_, ?_⟩
    · rw [ha]
      simp [processUpload]
    · rw [hg]
      simp [processUpload]
    · rw [ht]
      simp [processUpload]

/-- C5: after appending any sequence of records to the empty page, the
card list is the exact reverse of the History Store (most-recent-first),
the table rows and both chart series follow store order (oldest-first),
and every view has one entry per appended record. -/
theorem view_orderings (files : List (String × DetResult)) (prev : ChartState) :
    (processAll initialState files).allImages =
      files.map (fun f => mkImgObj f.1 f.2) ∧
    (processAll initialState files).imageGrid =
      ((processAll initialState files).allImages.map cardOf).reverse ∧
    (processAll initialState files).tableRows =
      (processAll initialState files).allImages.map mkTableRow ∧
    (processAll initialState files).allImages.length = files.length ∧
    (processAll initialState files).imageGrid.length = files.length ∧
    (processAll initialState files).tableRows.length = files.length ∧
    (updateCharts prev (processAll initialState files).allImages).compLabels =
      (processAll initialState files).allImages.map (fun img => img.shortName) ∧
    (updateCharts prev (processAll initialState files).allImages).accData =
      (processAll initialState files).allImages.map (fun img => jsNumber img.accuracy) := by
  obtain ⟨ha, hg, ht⟩ := processAll_spec files initialState
  have h0a : initialState.allImages = [] := rfl
  have h0g : initialState.imageGrid = [] := rfl
  have h0t : initialState.tableRows = [] := rfl
  rw [h0a] at ha
  rw [h0g] at hg
  rw [h0t] at ht
  simp only [List.nil_append, List.append_nil] at ha hg ht
  have hcards : (processAll initialState files).allImages.map cardOf =
      files.map (fun f => mkCard f.1 f.2) := by
    rw [ha, List.map_map]
    rfl
  refine ⟨ha, ?_, ?_, ?_, ?_, ?_, rfl, rfl⟩
  · rw [hcards, hg]
  · rw [ht, ha, List.map_map]
    rfl
  · rw [ha]
    simp
  · rw [hg]
    simp
  · rw [ht]
    simp

/-- C8: chart projection over a store snapshot yields the shortName
labels in store order on both charts; the composition chart has one data
series per category, whose entry for record i is that record's count for
the category; the accuracy series entry for record i is the numeric
value of that record's accuracy string; the recomputation is a total
replacement (independent of the previous chart state) and an empty store
yields empty series. -/
theorem chart_projection (prev prev2 : ChartState) (store : List AnalyzedImage)
    (t i : Nat) (ht : t < 4) (hi : i < store.length)
    (h4 : ∀ img ∈ store, img.counts.length = 4) :
    (updateCharts prev store).compLabels = store.map (fun img => img.shortName) ∧
    (updateCharts prev store).accLabels = store.map (fun img => img.shortName) ∧
    (updateCharts prev store).compData.length = 4 ∧
    (updateCharts prev store).compData[t]? =
      some (store.map (fun img => img.counts[t]?)) ∧
    (store.map (fun img => img.counts[t]?))[i]? =
      some ((store.get ⟨i, hi⟩).counts[t]?) ∧
    (∃ c, (store.get ⟨i, hi⟩).counts[t]? = some c) ∧
    (updateCharts prev store).accData[i]? =
      some (jsNumber (store.get ⟨i, hi⟩).accuracy) ∧
    updateCharts prev store = updateCharts prev2 store ∧
    updateCharts prev [] =
      { compLabels := [], compData := [[], [], [], []],
        accLabels := [], accData := [] } := by
  have hTlen : TYPES.length = 4 := rfl
  refine ⟨rfl, rfl, by simp [updateCharts, hTlen], ?_, ?_, ?_, ?_, rfl, rfl⟩
  · simp [updateCharts, hTlen, List.getElem?_range ht]
  · simp [List.getElem?_map, List.getElem?_eq_getElem hi, List.get_eq_getElem]
  · have hmem : store.get ⟨i, hi⟩ ∈ store := List.get_mem store i hi
    have hlen : (store.get ⟨i, hi⟩).counts.length = 4 := h4 _ hmem
    have htl : t < (store.get ⟨i, hi⟩).counts.length := by
      rw [hlen]
      exact ht
    exact ⟨(store.get ⟨i, hi⟩).counts.get ⟨t, htl⟩,
      by rw [List.getElem?_eq_getElem htl]; simp [List.get_eq_getElem]⟩
  · simp [updateCharts, List.getElem?_map, List.getElem?_eq_getElem hi,
      List.get_eq_getElem]

/-- C8 witness: evaluated at a one-record store and two distinct
previous chart states. -/
theorem chart_projection_witness :
    (0 : Nat) < 4 ∧ (0 : Nat) < ([sampleImage] : List AnalyzedImage).length ∧
    (∀ img ∈ ([sampleImage] : List AnalyzedImage), img.counts.length = 4) ∧
    ((updateCharts ⟨[], [], [], []⟩ [sampleImage]).compLabels =
      ([sampleImage] : List AnalyzedImage).map (fun img => img.shortName) ∧
    (updateCharts ⟨[], [], [], []⟩ [sampleImage]).accLabels =
      ([sampleImage] : List AnalyzedImage).map (fun img => img.shortName) ∧
    (updateCharts ⟨[], [], [], []⟩ [sampleImage]).compData.length = 4 ∧
    (updateCharts ⟨[], [], [], []⟩ [sampleImage]).compData[(0 : Nat)]? =
      some (([sampleImage] : List AnalyzedImage).map (fun img => img.counts[(0 : Nat)]?)) ∧
    (([sampleImage] : List AnalyzedImage).map (fun img => img.counts[(0 : Nat)]?))[(0 : Nat)]? =
      some ((([sampleImage] : List AnalyzedImage).get ⟨0, by decide⟩).counts[(0 : Nat)]?) ∧
    (∃ c, (([sampleImage] : List AnalyzedImage).get ⟨0, by decide⟩).counts[(0 : Nat)]? = some c) ∧
    (updateCharts ⟨[], [], [], []⟩ [sampleImage]).accData[(0 : Nat)]? =
      some (jsNumber (([sampleImage] : List AnalyzedImage).get ⟨0, by decide⟩).accuracy) ∧
    updateCharts ⟨[], [], [], []⟩ [sampleImage] =
      updateCharts ⟨["stale"], [[some 9]], ["stale"], [9]⟩ [sampleImage] ∧
    updateCharts ⟨[], [], [], []⟩ [] =
      { compLabels := [], compData := [[], [], [], []],
        accLabels := [], accData := [] }) :=
  ⟨by decide, by decide, by decide,
   chart_projection ⟨[], [], [], []⟩ ⟨["stale"], [[some 9]], ["stale"], [9]⟩
     [sampleImage] 0 0 (by decide) (by decide) (by decide)⟩

end Microsih
